import Mathlib

/-!
Verification of the LLM-proxy request pipeline of the Node.js backend
(`src/backend/node/src/routes/llm.ts`, `config.ts`, `routes/info.ts`).

The TypeScript source is shallowly embedded: JS numbers holding integer
quantities become `Int`, `Math.floor` of a nonnegative-divisor quotient
becomes `Int.ediv`, optional values (`string | undefined`, optional JSON
fields) become `Option`, and the outcome of an outbound `fetch` is made
explicit as a `FetchOutcome` parameter (timeout, transport error, HTTP
error status with body, or a parsed success payload), so that the provider
clients are total functions of the upstream outcome.
-/

namespace OnaBackend

/-- JS truthiness of a `string | undefined` value: defined and non-empty. -/
def truthy : Option String → Bool
  | none => false
  | some s => !s.isEmpty

/-- Application configuration (config.ts `Config`), restricted to the fields
the LLM pipeline reads. -/
structure Config where
  openaiApiKey : Option String
  anthropicApiKey : Option String
  openaiModel : String
  anthropicModel : String
  llmTimeout : Int
  maxPromptLength : Int
  rateLimitPerMinute : Int

/-- JS whitespace characters skipped by `parseInt` (common ASCII subset). -/
def jsWhitespace (c : Char) : Bool :=
  c == ' ' || c == '\t' || c == '\n' || c == '\r'

/-- Longest digit prefix of a character list, read as a decimal number;
`none` when there is no leading digit (the NaN case of `parseInt`). -/
def parseDigits (cs : List Char) : Option Nat :=
  let ds := cs.takeWhile Char.isDigit
  if ds.isEmpty then none
  else some (ds.foldl (fun a c => a * 10 + (c.toNat - 48)) 0)

/-- Model of JS `parseInt(value, 10)` as used by `getEnvNumber`: skip leading
whitespace, accept an optional sign, then read the longest decimal-digit
prefix; no digits means NaN, modelled as `none`. -/
def parseIntJS (s : String) : Option Int :=
  match s.toList.dropWhile jsWhitespace with
  | '-' :: rest => (parseDigits rest).map (fun n => -(n : Int))
  | '+' :: rest => (parseDigits rest).map (fun n => (n : Int))
  | cs => (parseDigits cs).map (fun n => (n : Int))

/-- config.ts `getEnvNumber`: parse the environment value with `parseInt`,
falling back to the default when the variable is absent or parses to NaN. -/
def getEnvNumber (value : Option String) (defaultValue : Int) : Int :=
  match value with
  | none => defaultValue
  | some v =>
    match parseIntJS v with
    | none => defaultValue
    | some n => n

/-- llm.ts `MS_PER_MINUTE`. -/
def MS_PER_MINUTE : Int := 60000

/-- State of the llm.ts `RateLimiter` token bucket. -/
structure RLState where
  tokens : Int
  maxTokens : Int
  lastRefill : Int
deriving DecidableEq

/-- The llm.ts `RateLimiter` constructor: both `maxTokens` and `tokens`
start at `tokensPerMinute`, `lastRefill` at the current time. -/
def RateLimiter.init (tokensPerMinute : Int) (now : Int) : RLState :=
  { tokens := tokensPerMinute, maxTokens := tokensPerMinute, lastRefill := now }

/-- llm.ts `RateLimiter.refill`: add `floor(elapsed / 60000 * maxTokens)`
tokens capped at `maxTokens`, updating `lastRefill` only when the amount
is positive. -/
def refill (st : RLState) (now : Int) : RLState :=
  let elapsed := now - st.lastRefill
  let tokensToAdd := elapsed * st.maxTokens / MS_PER_MINUTE
  if tokensToAdd > 0 then
    { st with tokens := min st.maxTokens (st.tokens + tokensToAdd), lastRefill := now }
  else st

/-- llm.ts `RateLimiter.tryConsume`: refill, then consume one token when
any is available. Returns the admission decision and the new state. -/
def tryConsume (st : RLState) (now : Int) : Bool × RLState :=
  let st1 := refill st now
  if st1.tokens > 0 then (true, { st1 with tokens := st1.tokens - 1 })
  else (false, st1)

/-- The refill-then-consume algorithm exactly as the spec words it
(steps 1-5 of section 4.2), for comparison with `tryConsume`. -/
def tryConsumeSpec (st : RLState) (now : Int) : Bool × RLState :=
  let elapsedMs := now - st.lastRefill
  let tokensToAdd := elapsedMs * st.maxTokens / 60000
  let st1 :=
    if tokensToAdd > 0 then
      { st with tokens := min st.maxTokens (st.tokens + tokensToAdd), lastRefill := now }
    else st
  if st1.tokens > 0 then (true, { st1 with tokens := st1.tokens - 1 })
  else (false, st1)

/-- Run `n` consecutive `tryConsume` calls at one clock instant, collecting
the admission decisions. -/
def consumeRun : Nat → RLState → Int → List Bool × RLState
  | 0, st, _ => ([], st)
  | Nat.succ n, st, now =>
    let r := tryConsume st now
    let rest := consumeRun n r.2 now
    (r.1 :: rest.1, rest.2)

/-- Run a sequence of `tryConsume` calls at the given clock times. -/
def runCalls : List Int → RLState → RLState
  | [], st => st
  | t :: ts, st => runCalls ts (tryConsume st t).2

/-- The token-bucket state invariant of the spec's data model. -/
def RLinv (st : RLState) : Prop :=
  0 ≤ st.tokens ∧ st.tokens ≤ st.maxTokens

instance (st : RLState) : Decidable (RLinv st) :=
  inferInstanceAs (Decidable (0 ≤ st.tokens ∧ st.tokens ≤ st.maxTokens))

/-- llm.ts `LLMResponse`: the normalized completion response shape.
`error : string | null` becomes `Option String`. -/
structure LLMResponse where
  provider : String
  model : String
  output : String
  stub : Bool
  error : Option String
deriving DecidableEq

/-- llm.ts `OpenAIResponse` message: optional `content` field. -/
structure OpenAIMessage where
  content : Option String
deriving DecidableEq

/-- llm.ts `OpenAIResponse` choice: optional `message` field. -/
structure OpenAIChoice where
  message : Option OpenAIMessage
deriving DecidableEq

/-- llm.ts `OpenAIResponse`: optional `choices` array. -/
structure OpenAIResponse where
  choices : Option (List OpenAIChoice)
deriving DecidableEq

/-- llm.ts `AnthropicResponse` content block: a `type` tag and an optional
`text` field. -/
structure AnthropicBlock where
  type : String
  text : Option String
deriving DecidableEq

/-- llm.ts `AnthropicResponse`: optional `content` array. -/
structure AnthropicResponse where
  content : Option (List AnthropicBlock)
deriving DecidableEq

/-- Outcome of the outbound `fetch` call, made explicit: the timeout abort,
a non-timeout transport failure with its message, a non-success HTTP status
with the raw response body, or a parsed success payload. -/
inductive FetchOutcome (α : Type) where
  | timeout
  | transportError (message : String)
  | httpError (status : Nat) (body : String)
  | success (data : α)

/-- llm.ts `callOpenAI` content extraction:
`data.choices?.[0]?.message?.content ?? ''`. -/
def openAIContent (d : OpenAIResponse) : String :=
  match d.choices with
  | none => ""
  | some cs =>
    match cs.head? with
    | none => ""
    | some c =>
      match c.message with
      | none => ""
      | some m => m.content.getD ""

/-- llm.ts `callAnthropic` content extraction loop: the first block with
`block.type === 'text' && block.text` (truthy text, i.e. present and
non-empty) supplies the content; otherwise the content stays empty. -/
def anthropicContent : List AnthropicBlock → String
  | [] => ""
  | b :: bs =>
    if b.type == "text" && !(b.text.getD "").isEmpty then b.text.getD ""
    else anthropicContent bs

/-- llm.ts `callOpenAI` as a function of the configuration and the upstream
outcome. -/
def callOpenAI (cfg : Config) (outcome : FetchOutcome OpenAIResponse) : LLMResponse :=
  match outcome with
  | .timeout =>
    { provider := "openai", model := cfg.openaiModel, output := "", stub := false,
      error := some "Request timed out" }
  | .transportError msg =>
    { provider := "openai", model := cfg.openaiModel, output := "", stub := false,
      error := some ("Request failed: " ++ msg) }
  | .httpError status _body =>
    { provider := "openai", model := cfg.openaiModel, output := "", stub := false,
      error := some ("OpenAI API error: " ++ toString status) }
  | .success data =>
    let content := openAIContent data
    if content.isEmpty then
      { provider := "openai", model := cfg.openaiModel, output := "", stub := false,
        error := some "OpenAI returned empty response" }
    else
      { provider := "openai", model := cfg.openaiModel, output := content, stub := false,
        error := none }

/-- llm.ts `callAnthropic` as a function of the configuration and the
upstream outcome. -/
def callAnthropic (cfg : Config) (outcome : FetchOutcome AnthropicResponse) : LLMResponse :=
  match outcome with
  | .timeout =>
    { provider := "anthropic", model := cfg.anthropicModel, output := "", stub := false,
      error := some "Request timed out" }
  | .transportError msg =>
    { provider := "anthropic", model := cfg.anthropicModel, output := "", stub := false,
      error := some ("Request failed: " ++ msg) }
  | .httpError status _body =>
    { provider := "anthropic", model := cfg.anthropicModel, output := "", stub := false,
      error := some ("Anthropic API error: " ++ toString status) }
  | .success data =>
    let content := anthropicContent (data.content.getD [])
    if content.isEmpty then
      { provider := "anthropic", model := cfg.anthropicModel, output := "", stub := false,
        error := some "Anthropic returned empty response" }
    else
      { provider := "anthropic", model := cfg.anthropicModel, output := content, stub := false,
        error := none }

/-- llm.ts `createStubResponse`. -/
def createStubResponse : LLMResponse :=
  { provider := "stub", model := "none",
    output := "Stub response. Set OPENAI_API_KEY or ANTHROPIC_API_KEY for real LLM calls.",
    stub := true, error := none }

/-- llm.ts `processLLMRequest`: provider selection order OpenAI > Anthropic
> Stub, keyed on JS truthiness of the configured API keys. The prompt and
the two possible upstream outcomes are passed explicitly. -/
def processLLMRequest (cfg : Config) (oo : FetchOutcome OpenAIResponse)
    (ao : FetchOutcome AnthropicResponse) (_prompt : String) : LLMResponse :=
  if truthy cfg.openaiApiKey then callOpenAI cfg oo
  else if truthy cfg.anthropicApiKey then callAnthropic cfg ao
  else createStubResponse

/-- The provider field the configuration selects, as a function of the
configuration alone. -/
def selectedProvider (cfg : Config) : String :=
  if truthy cfg.openaiApiKey then "openai"
  else if truthy cfg.anthropicApiKey then "anthropic"
  else "stub"

/-- The `prompt` field of a POST /llm body as the handler sees it:
absent (or absent body), present but not a string, or a string. -/
inductive PromptField where
  | missing
  | notString
  | str (s : String)
deriving DecidableEq

/-- Outcome of prompt validation in the llm.ts route handler. -/
inductive ValidationResult where
  | invalid (message : String)
  | valid (prompt : String)
deriving DecidableEq

/-- The validation chain of the POST /llm handler (llm.ts lines 349-368):
`!prompt || typeof prompt !== 'string'` (note: JS `!prompt` is true for the
empty string), then the `prompt.length === 0` check, then the maximum-length
check. -/
def validatePrompt (cfg : Config) (prompt : PromptField) : ValidationResult :=
  match prompt with
  | .missing => .invalid "Prompt is required"
  | .notString => .invalid "Prompt is required"
  | .str s =>
    if s.isEmpty then .invalid "Prompt is required"
    else if s.length = 0 then .invalid "Prompt cannot be empty"
    else if (s.length : Int) > cfg.maxPromptLength then
      .invalid ("Prompt exceeds maximum length of " ++ toString cfg.maxPromptLength
        ++ " characters")
    else .valid s

/-- HTTP-level result of the POST /llm handler. -/
inductive LLMHttpResult where
  | rateLimited (body : String)
  | badRequest (message : String)
  | ok (response : LLMResponse)
deriving DecidableEq

/-- The POST /llm handler (llm.ts `llmRoutes`): rate limiting first, then
prompt validation, then orchestration. Returns the HTTP result together
with the rate limiter state after the request. -/
def handleLLM (cfg : Config) (st : RLState) (now : Int) (prompt : PromptField)
    (oo : FetchOutcome OpenAIResponse) (ao : FetchOutcome AnthropicResponse) :
    LLMHttpResult × RLState :=
  let r := tryConsume st now
  if !r.1 then (.rateLimited "Rate limit exceeded. Try again later.", r.2)
  else
    match validatePrompt cfg prompt with
    | .invalid m => (.badRequest m, r.2)
    | .valid p => (.ok (processLLMRequest cfg oo ao p), r.2)

/-- info.ts `getAvailableProviders`: push "openai" and "anthropic" for
truthy keys; fall back to ["stub"] when none. -/
def getAvailableProviders (cfg : Config) : List String :=
  let providers :=
    (if truthy cfg.openaiApiKey then ["openai"] else [])
      ++ (if truthy cfg.anthropicApiKey then ["anthropic"] else [])
  if providers.isEmpty then ["stub"] else providers

/-- info.ts `/info` handler's `active_provider`: `providers[0] ?? 'none'`. -/
def activeProvider (cfg : Config) : String :=
  (getAvailableProviders cfg).headD "none"

/-- The spec's `CompletionResponse` data-model invariant: provider is one of
the three known tags; when not a stub, exactly one of (non-empty output with
null error) or (non-null error with empty output) holds; a stub response
carries the fixed informational text and a null error. -/
def wellFormed (r : LLMResponse) : Prop :=
  (r.provider = "openai" ∨ r.provider = "anthropic" ∨ r.provider = "stub") ∧
  (r.stub = false →
    ((¬ r.output.isEmpty = true ∧ r.error = none) ∧
        ¬ (r.error ≠ none ∧ r.output = "")) ∨
      ((r.error ≠ none ∧ r.output = "") ∧
        ¬ (¬ r.output.isEmpty = true ∧ r.error = none))) ∧
  (r.stub = true →
    r.output = "Stub response. Set OPENAI_API_KEY or ANTHROPIC_API_KEY for real LLM calls."
      ∧ r.error = none)

/-- Extraction as the spec and claim C8 word it for Anthropic: the text of
the first content block of type "text" (missing text read as empty), `none`
when no block has type "text". Modelled from the spec for comparison with
the source's `anthropicContent`. -/
def anthropicFirstTextBlock : List AnthropicBlock → Option String
  | [] => none
  | b :: bs =>
    if b.type == "text" then some (b.text.getD "")
    else anthropicFirstTextBlock bs

/-! Rate limiter lemmas -/

lemma refill_of_noAdd (st : RLState) (now : Int)
    (h : (now - st.lastRefill) * st.maxTokens / MS_PER_MINUTE ≤ 0) :
    refill st now = st := by
  simp [refill, not_lt.mpr h]

lemma refill_same_time (st : RLState) (now : Int) (h : st.lastRefill = now) :
    refill st now = st := by
  apply refill_of_noAdd
  rw [h]
  simp [Int.zero_ediv]

lemma tryConsume_pos (st : RLState) (now : Int) (hfix : refill st now = st)
    (hpos : 0 < st.tokens) :
    tryConsume st now = (true, { st with tokens := st.tokens - 1 }) := by
  simp [tryConsume, hfix, hpos]

lemma tryConsume_zero (st : RLState) (now : Int) (hfix : refill st now = st)
    (hz : st.tokens ≤ 0) :
    tryConsume st now = (false, st) := by
  simp [tryConsume, hfix, not_lt.mpr hz]

lemma consumeRun_all_true (n : Nat) :
    ∀ (st : RLState) (now : Int), st.lastRefill = now → (n : Int) ≤ st.tokens →
      consumeRun n st now = (List.replicate n true, { st with tokens := st.tokens - n }) := by
  induction n with
  | zero =>
    intro st now _ _
    simp [consumeRun]
  | succ n ih =>
    intro st now hlr hn
    have hpos : 0 < st.tokens := by
      push_cast at hn
      omega
    have hstep := tryConsume_pos st now (refill_same_time st now hlr) hpos
    have ihst := ih { st with tokens := st.tokens - 1 } now hlr
      (by push_cast at hn ⊢; omega)
    have harith : st.tokens - 1 - (n : Int) = st.tokens - ((n + 1 : Nat) : Int) := by
      push_cast
      ring
    simp [consumeRun, hstep, ihst, List.replicate_succ, harith]

lemma consumeRun_succ (n : Nat) (st : RLState) (now : Int) :
    consumeRun (n + 1) st now
      = ((tryConsume st now).1 :: (consumeRun n (tryConsume st now).2 now).1,
          (consumeRun n (tryConsume st now).2 now).2) := rfl

/-- C3: tryConsume implements exactly the spec's refill-then-consume
algorithm (it coincides with the spec-worded `tryConsumeSpec` on every state
and clock time); consequently, for a fresh bucket with maxTokens = N, the
first N tryConsume calls with no elapsed time return true, the (N+1)-th
returns false, and after 60000 ms of elapsed time the bucket is full again:
the next N calls all return true. -/
theorem tryConsume_algorithm_and_saturation (N : Nat) (t0 : Int) (st : RLState) (now : Int) :
    tryConsume st now = tryConsumeSpec st now ∧
    (consumeRun N (RateLimiter.init N t0) t0).1 = List.replicate N true ∧
    (tryConsume (consumeRun N (RateLimiter.init N t0) t0).2 t0).1 = false ∧
    (consumeRun N (tryConsume (consumeRun N (RateLimiter.init N t0) t0).2 t0).2 (t0 + 60000)).1
      = List.replicate N true := by
  have hrun := consumeRun_all_true N (RateLimiter.init N t0) t0 rfl
    (by simp [RateLimiter.init])
  have hstate : (consumeRun N (RateLimiter.init N t0) t0).2 = ⟨0, (N : Int), t0⟩ := by
    rw [hrun]
    simp [RateLimiter.init]
  have hfalse := tryConsume_zero (⟨0, (N : Int), t0⟩ : RLState) t0
    (refill_same_time _ t0 rfl) (le_refl 0)
  refine ⟨rfl, by rw [hrun], ?_, ?_⟩
  · rw [hstate, hfalse]
  · rw [hstate, hfalse]
    show (consumeRun N (⟨0, (N : Int), t0⟩ : RLState) (t0 + 60000)).1 = List.replicate N true
    cases N with
    | zero => rfl
    | succ M =>
      have hadd : (t0 + 60000 - t0) * ((M + 1 : Nat) : Int) / MS_PER_MINUTE
          = ((M + 1 : Nat) : Int) := by
        have he : t0 + 60000 - t0 = (60000 : Int) := by ring
        rw [he, MS_PER_MINUTE]
        exact Int.mul_ediv_cancel_left _ (by norm_num)
      have hposN : (0 : Int) < ((M + 1 : Nat) : Int) := by positivity
      have hrefill : refill (⟨0, ((M + 1 : Nat) : Int), t0⟩ : RLState) (t0 + 60000)
          = ⟨((M + 1 : Nat) : Int), ((M + 1 : Nat) : Int), t0 + 60000⟩ := by
        unfold refill
        dsimp only
        rw [hadd, if_pos hposN]
        simp
      have hstep : tryConsume (⟨0, ((M + 1 : Nat) : Int), t0⟩ : RLState) (t0 + 60000)
          = (true, ⟨((M + 1 : Nat) : Int) - 1, ((M + 1 : Nat) : Int), t0 + 60000⟩) := by
        unfold tryConsume
        rw [hrefill]
        dsimp only
        rw [if_pos hposN]
      have hrest := consumeRun_all_true M
        (⟨((M + 1 : Nat) : Int) - 1, ((M + 1 : Nat) : Int), t0 + 60000⟩ : RLState)
        (t0 + 60000) rfl (by push_cast; omega)
      rw [consumeRun_succ, hstep]
      dsimp only
      rw [hrest]
      dsimp only
      rw [List.replicate_succ]

/-! Rate limiter invariant lemmas -/

lemma refill_inv (st : RLState) (now : Int) (hinv : RLinv st) (hle : st.lastRefill ≤ now) :
    RLinv (refill st now) ∧ (refill st now).lastRefill ≤ now
      ∧ (refill st now).maxTokens = st.maxTokens := by
  obtain ⟨h0, h1⟩ := hinv
  have hmax : 0 ≤ st.maxTokens := le_trans h0 h1
  by_cases hpos : (now - st.lastRefill) * st.maxTokens / MS_PER_MINUTE > 0
  · have h2 : refill st now
        = { st with
            tokens := min st.maxTokens
              (st.tokens + (now - st.lastRefill) * st.maxTokens / MS_PER_MINUTE),
            lastRefill := now } := by
      unfold refill
      dsimp only
      rw [if_pos hpos]
    rw [h2]
    refine ⟨⟨?_, ?_⟩, ?_, ?_⟩
    · exact le_min hmax (by omega)
    · exact min_le_left _ _
    · exact le_refl now
    · rfl
  · rw [refill_of_noAdd st now (not_lt.mp hpos)]
    exact ⟨⟨h0, h1⟩, hle, rfl⟩

lemma tryConsume_inv (st : RLState) (now : Int) (hinv : RLinv st) (hle : st.lastRefill ≤ now) :
    RLinv (tryConsume st now).2 ∧ (tryConsume st now).2.lastRefill ≤ now := by
  obtain ⟨⟨h0, h1⟩, hlr, _⟩ := refill_inv st now hinv hle
  by_cases hpos : (refill st now).tokens > 0
  · have h2 : (tryConsume st now).2
        = { refill st now with tokens := (refill st now).tokens - 1 } := by
      unfold tryConsume
      dsimp only
      rw [if_pos hpos]
    rw [h2]
    exact ⟨⟨by dsimp only; omega, by dsimp only; omega⟩, hlr⟩
  · have h2 : (tryConsume st now).2 = refill st now := by
      unfold tryConsume
      dsimp only
      rw [if_neg hpos]
    rw [h2]
    exact ⟨⟨h0, h1⟩, hlr⟩

lemma runCalls_inv (ts : List Int) :
    ∀ (st : RLState) (t : Int), RLinv st → st.lastRefill ≤ t →
      List.Chain (· ≤ ·) t ts → RLinv (runCalls ts st) := by
  induction ts with
  | nil =>
    intro st _ h _ _
    exact h
  | cons t1 ts ih =>
    intro st t h hle hchain
    obtain ⟨h1, h2⟩ := List.chain_cons.mp hchain
    obtain ⟨hinv1, hlr1⟩ := tryConsume_inv st t1 h (le_trans hle h1)
    exact ih (tryConsume st t1).2 t1 hinv1 hlr1 h2

/-- C4 (amended): provided the configured rateLimitPerMinute is nonnegative,
the token-bucket invariant 0 ≤ tokens ≤ maxTokens holds after construction
and is preserved by every sequence of tryConsume calls at monotone clock
times. -/
theorem rl_invariant (tpm now0 : Int) (ts : List Int) (h0 : 0 ≤ tpm)
    (hchain : List.Chain (· ≤ ·) now0 ts) :
    RLinv (RateLimiter.init tpm now0) ∧ RLinv (runCalls ts (RateLimiter.init tpm now0)) := by
  have hinit : RLinv (RateLimiter.init tpm now0) := ⟨h0, le_refl _⟩
  exact ⟨hinit, runCalls_inv ts _ now0 hinit (le_refl _) hchain⟩

/-- Witness for C4's amended theorem at rateLimitPerMinute 60 with calls at
times 5 and 10. -/
theorem rl_invariant_witness :
    RLinv (RateLimiter.init 60 0) ∧ RLinv (runCalls [5, 10] (RateLimiter.init 60 0)) :=
  rl_invariant 60 0 [5, 10] (by norm_num)
    (List.Chain.cons (by norm_num) (List.Chain.cons (by norm_num) List.Chain.nil))

/-- C4 counterexample: the environment value "-1" parses to the number -1
(getEnvNumber performs no sign check), and the RateLimiter constructed with
tokensPerMinute = -1 violates 0 ≤ tokens already at construction. -/
theorem rl_invariant_negative_config :
    getEnvNumber (some "-1") 60 = -1 ∧
    ¬ RLinv (RateLimiter.init (getEnvNumber (some "-1") 60) 0) := by
  exact ⟨by decide, by decide⟩

/-! Provider client and orchestrator lemmas -/

lemma callOpenAI_provider (cfg : Config) (o : FetchOutcome OpenAIResponse) :
    (callOpenAI cfg o).provider = "openai" := by
  cases o with
  | timeout => rfl
  | transportError m => rfl
  | httpError s b => rfl
  | success d =>
    by_cases h : (openAIContent d).isEmpty <;> simp [callOpenAI, h]

lemma callAnthropic_provider (cfg : Config) (o : FetchOutcome AnthropicResponse) :
    (callAnthropic cfg o).provider = "anthropic" := by
  cases o with
  | timeout => rfl
  | transportError m => rfl
  | httpError s b => rfl
  | success d =>
    by_cases h : (anthropicContent (d.content.getD [])).isEmpty <;> simp [callAnthropic, h]

lemma wf_callOpenAI (cfg : Config) (o : FetchOutcome OpenAIResponse) :
    wellFormed (callOpenAI cfg o) := by
  cases o with
  | timeout => simp [wellFormed, callOpenAI]
  | transportError m => simp [wellFormed, callOpenAI]
  | httpError s b => simp [wellFormed, callOpenAI]
  | success d =>
    by_cases h : (openAIContent d).isEmpty <;> simp [wellFormed, callOpenAI, h]

lemma wf_callAnthropic (cfg : Config) (o : FetchOutcome AnthropicResponse) :
    wellFormed (callAnthropic cfg o) := by
  cases o with
  | timeout => simp [wellFormed, callAnthropic]
  | transportError m => simp [wellFormed, callAnthropic]
  | httpError s b => simp [wellFormed, callAnthropic]
  | success d =>
    by_cases h : (anthropicContent (d.content.getD [])).isEmpty <;>
      simp [wellFormed, callAnthropic, h]

lemma wf_stub : wellFormed createStubResponse := by
  simp [wellFormed, createStubResponse]

/-- C1: with neither API key set, processLLMRequest returns exactly the stub
response, whose fields are the fixed record of the spec, independent of the
prompt and of any upstream outcome. -/
theorem stub_fallback (cfg : Config) (oo : FetchOutcome OpenAIResponse)
    (ao : FetchOutcome AnthropicResponse) (prompt : String)
    (h1 : cfg.openaiApiKey = none) (h2 : cfg.anthropicApiKey = none) :
    processLLMRequest cfg oo ao prompt = createStubResponse ∧
    createStubResponse
      = { provider := "stub", model := "none",
          output := "Stub response. Set OPENAI_API_KEY or ANTHROPIC_API_KEY for real LLM calls.",
          stub := true, error := none } := by
  refine ⟨?_, rfl⟩
  unfold processLLMRequest
  rw [h1, h2]
  rfl

/-- Witness for C1 at a concrete keyless configuration. -/
theorem stub_fallback_witness :
    processLLMRequest
        ⟨none, none, "gpt-4o-mini", "claude-3-5-sonnet-latest", 30000, 4000, 60⟩
        .timeout .timeout "hello" = createStubResponse :=
  (stub_fallback ⟨none, none, "gpt-4o-mini", "claude-3-5-sonnet-latest", 30000, 4000, 60⟩
    .timeout .timeout "hello" rfl rfl).1

/-- C2: provider selection is a fixed total precedence function of the
configuration alone: a truthy openaiApiKey always delegates to the OpenAI
client (even when anthropicApiKey is also set), only a truthy
anthropicApiKey delegates to the Anthropic client, otherwise the stub is
returned, and the provider of the result depends only on the configuration
(in particular there is no fallback to the other provider on an error
outcome). -/
theorem provider_precedence (cfg : Config) (oo : FetchOutcome OpenAIResponse)
    (ao : FetchOutcome AnthropicResponse) (p : String) :
    (truthy cfg.openaiApiKey = true → processLLMRequest cfg oo ao p = callOpenAI cfg oo) ∧
    (truthy cfg.openaiApiKey = false → truthy cfg.anthropicApiKey = true →
      processLLMRequest cfg oo ao p = callAnthropic cfg ao) ∧
    (truthy cfg.openaiApiKey = false → truthy cfg.anthropicApiKey = false →
      processLLMRequest cfg oo ao p = createStubResponse) ∧
    (processLLMRequest cfg oo ao p).provider = selectedProvider cfg := by
  refine ⟨?_, ?_, ?_, ?_⟩
  · intro h
    simp [processLLMRequest, h]
  · intro h1 h2
    simp [processLLMRequest, h1, h2]
  · intro h1 h2
    simp [processLLMRequest, h1, h2]
  · unfold processLLMRequest selectedProvider
    cases h1 : truthy cfg.openaiApiKey <;> cases h2 : truthy cfg.anthropicApiKey <;>
      simp [callOpenAI_provider, callAnthropic_provider, createStubResponse]

/-- Witness for C2 with both keys configured: the OpenAI client is the one
invoked. -/
theorem provider_precedence_witness :
    processLLMRequest
        ⟨some "sk-o", some "sk-a", "gpt-4o-mini", "claude-3-5-sonnet-latest", 30000, 4000, 60⟩
        .timeout .timeout "hi"
      = callOpenAI
          ⟨some "sk-o", some "sk-a", "gpt-4o-mini", "claude-3-5-sonnet-latest", 30000, 4000, 60⟩
          .timeout :=
  (provider_precedence
    ⟨some "sk-o", some "sk-a", "gpt-4o-mini", "claude-3-5-sonnet-latest", 30000, 4000, 60⟩
    .timeout .timeout "hi").1 (by decide)

/-- C6: every response produced by a provider client, the stub constructor
or the orchestrator satisfies the data-model invariant: a known provider
tag; when stub is false, exactly one of (non-empty output with null error)
or (non-null error with empty output); when stub is true, the fixed
informational output with null error. -/
theorem response_wellFormed (cfg : Config) (oo : FetchOutcome OpenAIResponse)
    (ao : FetchOutcome AnthropicResponse) (p : String) :
    wellFormed (callOpenAI cfg oo) ∧ wellFormed (callAnthropic cfg ao) ∧
    wellFormed createStubResponse ∧ wellFormed (processLLMRequest cfg oo ao p) := by
  refine ⟨wf_callOpenAI cfg oo, wf_callAnthropic cfg ao, wf_stub, ?_⟩
  unfold processLLMRequest
  cases h1 : truthy cfg.openaiApiKey <;> cases h2 : truthy cfg.anthropicApiKey <;>
    simp [wf_callOpenAI, wf_callAnthropic, wf_stub]

/-- C7: each provider client is a total function of the upstream outcome
returning a well-formed response, with error "Request timed out" on timeout,
"(Provider) API error: (status)" on a non-success HTTP status - the result
not depending on the raw response body - and "Request failed: (message)" on
any other transport failure. -/
theorem client_error_taxonomy (cfg : Config) (status : Nat) (b1 b2 msg : String)
    (oo : FetchOutcome OpenAIResponse) (ao : FetchOutcome AnthropicResponse) :
    wellFormed (callOpenAI cfg oo) ∧ wellFormed (callAnthropic cfg ao) ∧
    (callOpenAI cfg .timeout).error = some "Request timed out" ∧
    (callAnthropic cfg .timeout).error = some "Request timed out" ∧
    (callOpenAI cfg (.httpError status b1)).error
      = some ("OpenAI API error: " ++ toString status) ∧
    (callAnthropic cfg (.httpError status b1)).error
      = some ("Anthropic API error: " ++ toString status) ∧
    callOpenAI cfg (.httpError status b1) = callOpenAI cfg (.httpError status b2) ∧
    callAnthropic cfg (.httpError status b1) = callAnthropic cfg (.httpError status b2) ∧
    (callOpenAI cfg (.transportError msg)).error = some ("Request failed: " ++ msg) ∧
    (callAnthropic cfg (.transportError msg)).error = some ("Request failed: " ++ msg) :=
  ⟨wf_callOpenAI cfg oo, wf_callAnthropic cfg ao, rfl, rfl, rfl, rfl, rfl, rfl, rfl, rfl⟩

/-! Validation and handler lemmas -/

lemma string_length_zero_iff (s : String) : s.length = 0 ↔ s = "" := by
  constructor
  · intro h
    apply String.ext
    have hd : s.data.length = 0 := h
    simpa using List.length_eq_zero.mp hd
  · intro h
    rw [h]
    rfl

/-- C5 (code behavior, including at the failing input): missing, non-string
and empty prompts are all rejected with the same message "Prompt is
required" (the empty string is falsy in JS, so the dedicated
"Prompt cannot be empty" branch is unreachable), while a non-empty prompt is
accepted exactly when its length is at most maxPromptLength and otherwise
rejected with the exceeds-maximum-length message. -/
theorem empty_prompt_message_collision (cfg : Config) (s : String) :
    validatePrompt cfg (.str "") = .invalid "Prompt is required" ∧
    validatePrompt cfg .missing = .invalid "Prompt is required" ∧
    validatePrompt cfg .notString = .invalid "Prompt is required" ∧
    (s.isEmpty = false → (s.length : Int) ≤ cfg.maxPromptLength →
      validatePrompt cfg (.str s) = .valid s) ∧
    (s.isEmpty = false → (s.length : Int) > cfg.maxPromptLength →
      validatePrompt cfg (.str s)
        = .invalid ("Prompt exceeds maximum length of " ++ toString cfg.maxPromptLength
            ++ " characters")) := by
  have hlen : s.isEmpty = false → ¬ s.length = 0 := by
    intro h hz
    rw [(string_length_zero_iff s).mp hz] at h
    exact absurd h (by decide)
  refine ⟨rfl, rfl, rfl, ?_, ?_⟩
  · intro h hle
    simp [validatePrompt, h, hlen h, not_lt.mpr hle]
  · intro h hgt
    simp [validatePrompt, h, hlen h, hgt]

/-- Witness for C5's theorem: the length-1 prompt "a" is accepted under the
default maxPromptLength of 4000. -/
theorem empty_prompt_message_collision_witness :
    validatePrompt ⟨none, none, "gpt-4o-mini", "claude-3-5-sonnet-latest", 30000, 4000, 60⟩
        (.str "a") = .valid "a" :=
  (empty_prompt_message_collision
    ⟨none, none, "gpt-4o-mini", "claude-3-5-sonnet-latest", 30000, 4000, 60⟩ "a").2.2.2.1
    (by decide) (by decide)

/-- C9 (amended): on a request rejected with HTTP 400, the rate limiter
state after the handler returns is exactly the state produced by the single
tryConsume call that ran before validation; rate limiting precedes
validation, so a validation error still consumes a token. -/
theorem validation_error_state (cfg : Config) (st : RLState) (now : Int)
    (p : PromptField) (oo : FetchOutcome OpenAIResponse)
    (ao : FetchOutcome AnthropicResponse) (m : String)
    (h : (handleLLM cfg st now p oo ao).1 = .badRequest m) :
    (handleLLM cfg st now p oo ao).2 = (tryConsume st now).2 := by
  unfold handleLLM
  cases hb : (tryConsume st now).1 <;> cases hv : validatePrompt cfg p <;> simp [hb, hv]

/-- Witness for C9's amended theorem: a missing prompt at a bucket holding
5 tokens. -/
theorem validation_error_state_witness :
    (handleLLM ⟨none, none, "gpt-4o-mini", "claude-3-5-sonnet-latest", 30000, 4000, 60⟩
        ⟨5, 60, 0⟩ 0 .missing .timeout .timeout).2
      = (tryConsume ⟨5, 60, 0⟩ 0).2 :=
  validation_error_state
    ⟨none, none, "gpt-4o-mini", "claude-3-5-sonnet-latest", 30000, 4000, 60⟩
    ⟨5, 60, 0⟩ 0 .missing .timeout .timeout "Prompt is required" (by decide)

/-- C9 counterexample: a request with a missing prompt is answered with
HTTP 400, yet the rate limiter state changes: the bucket drops from 5 to 4
tokens, contradicting "no internal state change". -/
theorem validation_error_changes_state :
    handleLLM ⟨none, none, "gpt-4o-mini", "claude-3-5-sonnet-latest", 30000, 4000, 60⟩
        ⟨5, 60, 0⟩ 0 .missing .timeout .timeout
      = (.badRequest "Prompt is required", ⟨4, 60, 0⟩) ∧
    ((⟨4, 60, 0⟩ : RLState) ≠ ⟨5, 60, 0⟩) :=
  ⟨by decide, by decide⟩

/-! Response extraction lemmas -/

lemma anthropicContent_eq_find (bs : List AnthropicBlock) :
    anthropicContent bs
      = (match bs.find? (fun b => b.type == "text" && !(b.text.getD "").isEmpty) with
          | some b => b.text.getD ""
          | none => "") := by
  induction bs with
  | nil => rfl
  | cons b bs ih =>
    by_cases h : (b.type == "text" && !(b.text.getD "").isEmpty) = true
    · simp [anthropicContent, List.find?, h]
    · simp [anthropicContent, List.find?, h, ih]

/-- C8 (amended): the OpenAI client extracts the first choice's message
content; the Anthropic client extracts the first content block of type
"text" whose text is present and non-empty (text blocks with missing or
empty text are skipped); an empty extraction yields the
"returned empty response" error and a non-empty one yields that text with a
null error; in particular both canned "hello" responses normalize to output
"hello" with null error. -/
theorem extraction_normalization (cfg : Config) (d : OpenAIResponse)
    (bs : List AnthropicBlock) :
    openAIContent d
      = ((((d.choices.getD []).head?.bind OpenAIChoice.message).bind
          OpenAIMessage.content).getD "") ∧
    callOpenAI cfg (.success d)
      = (if (openAIContent d).isEmpty then
          { provider := "openai", model := cfg.openaiModel, output := "", stub := false,
            error := some "OpenAI returned empty response" }
        else
          { provider := "openai", model := cfg.openaiModel, output := openAIContent d,
            stub := false, error := none }) ∧
    anthropicContent bs
      = (match bs.find? (fun b => b.type == "text" && !(b.text.getD "").isEmpty) with
          | some b => b.text.getD ""
          | none => "") ∧
    callAnthropic cfg (.success ⟨some bs⟩)
      = (if (anthropicContent bs).isEmpty then
          { provider := "anthropic", model := cfg.anthropicModel, output := "", stub := false,
            error := some "Anthropic returned empty response" }
        else
          { provider := "anthropic", model := cfg.anthropicModel,
            output := anthropicContent bs, stub := false, error := none }) ∧
    callOpenAI cfg (.success ⟨some [⟨some ⟨some "hello"⟩⟩]⟩)
      = { provider := "openai", model := cfg.openaiModel, output := "hello", stub := false,
          error := none } ∧
    callAnthropic cfg (.success ⟨some [⟨"text", some "hello"⟩]⟩)
      = { provider := "anthropic", model := cfg.anthropicModel, output := "hello",
          stub := false, error := none } := by
  have hne : ("hello" : String).isEmpty = false := by decide
  refine ⟨?_, rfl, anthropicContent_eq_find bs, rfl, ?_, ?_⟩
  · obtain ⟨co⟩ := d
    cases co with
    | none => rfl
    | some cs =>
      cases cs with
      | nil => rfl
      | cons c cs =>
        obtain ⟨mo⟩ := c
        cases mo with
        | none => rfl
        | some m =>
          obtain ⟨t⟩ := m
          cases t <;> rfl
  · simp [callOpenAI, openAIContent, hne]
  · simp [callAnthropic, anthropicContent, hne]

/-- C8 counterexample: for the Anthropic body whose content is
[(type "text", text ""), (type "text", text "hi")], the first content block
of type "text" carries the empty text (so the claim mandates the
empty-response error), but the client skips it and returns output "hi" with
a null error. -/
theorem anthropic_extraction_cex :
    anthropicFirstTextBlock [⟨"text", some ""⟩, ⟨"text", some "hi"⟩] = some "" ∧
    callAnthropic ⟨none, none, "gpt-4o-mini", "claude-3-5-sonnet-latest", 30000, 4000, 60⟩
        (.success ⟨some [⟨"text", some ""⟩, ⟨"text", some "hi"⟩]⟩)
      = { provider := "anthropic", model := "claude-3-5-sonnet-latest", output := "hi",
          stub := false, error := none } :=
  ⟨by decide, by decide⟩

/-- C10: an API key set to the empty string is treated as absent: with
openaiApiKey the empty string and anthropicApiKey unset, processLLMRequest
returns the stub response, GET /info reports llm_providers ["stub"] with
active_provider "stub", and truthiness of the empty-string key coincides
with that of an unset key. -/
theorem empty_key_as_absent (cfg : Config) (oo : FetchOutcome OpenAIResponse)
    (ao : FetchOutcome AnthropicResponse) (p : String)
    (h1 : cfg.openaiApiKey = some "") (h2 : cfg.anthropicApiKey = none) :
    processLLMRequest cfg oo ao p = createStubResponse ∧
    getAvailableProviders cfg = ["stub"] ∧
    activeProvider cfg = "stub" ∧
    truthy (some "") = truthy none := by
  refine ⟨?_, ?_, ?_, rfl⟩
  · unfold processLLMRequest
    rw [h1, h2]
    rfl
  · unfold getAvailableProviders
    rw [h1, h2]
    rfl
  · unfold activeProvider getAvailableProviders
    rw [h1, h2]
    rfl

/-- Witness for C10 at a concrete configuration with an empty-string OpenAI
key. -/
theorem empty_key_as_absent_witness :
    processLLMRequest
        ⟨some "", none, "gpt-4o-mini", "claude-3-5-sonnet-latest", 30000, 4000, 60⟩
        .timeout .timeout "p" = createStubResponse ∧
    getAvailableProviders
        ⟨some "", none, "gpt-4o-mini", "claude-3-5-sonnet-latest", 30000, 4000, 60⟩
      = ["stub"] :=
  ⟨(empty_key_as_absent
      ⟨some "", none, "gpt-4o-mini", "claude-3-5-sonnet-latest", 30000, 4000, 60⟩
      .timeout .timeout "p" rfl rfl).1,
    (empty_key_as_absent
      ⟨some "", none, "gpt-4o-mini", "claude-3-5-sonnet-latest", 30000, 4000, 60⟩
      .timeout .timeout "p" rfl rfl).2.1⟩

end OnaBackend
